import Mathlib

/-!
Shallow embedding of the Forge viewer utility wrapper (src/src/Utilities.js)
and proofs about the behaviour it promises. The wrapper adapts an external,
opaque viewer engine: engine collaborators are modelled as explicit function
arguments or record fields, and the wrapper methods are translated directly
from the JavaScript source. Machine floats never enter any computation the
wrapper itself performs, so coordinates and matrix entries are carried by Int.
-/

/-! ## Document model: viewables (bubble nodes)

A document is a hierarchy of viewables. Each viewable carries free-form data;
the wrapper only consults the guid and the type fields, plus an id. -/

structure ViewableData where
  guid : String
  type : String
  id : Nat
deriving DecidableEq

/-- A node of the document hierarchy returned by the engine document loader. -/
inductive BubbleNode where
  | node (data : ViewableData) (children : List BubbleNode)

/-- The viewables of a forest whose data.type equals the filter, in preorder.
Embeds the engine search with a type filter, as used by doc.getRoot().search
on line 117 of Utilities.js. -/
def searchByType (filterType : String) : List BubbleNode → List ViewableData
  | [] => []
  | BubbleNode.node d cs :: rest =>
      (if d.type = filterType then [d] else [])
        ++ searchByType filterType cs ++ searchByType filterType rest

/-- The engine search rooted at a document node. -/
def BubbleNode.search (doc : BubbleNode) (filterType : String) : List ViewableData :=
  searchByType filterType [doc]

/-- First viewable of a forest with the given guid, in preorder. Embeds the
engine lookup doc.getRoot().findByGuid on line 109 of Utilities.js. -/
def findByGuidForest (g : String) : List BubbleNode → Option ViewableData
  | [] => none
  | BubbleNode.node d cs :: rest =>
      if d.guid = g then some d
      else
        match findByGuidForest g cs with
        | some v => some v
        | none => findByGuidForest g rest

/-- The engine guid lookup rooted at a document node. -/
def BubbleNode.findByGuid (doc : BubbleNode) (g : String) : Option ViewableData :=
  findByGuidForest g [doc]

/-! ## The load method -/

/-- The viewableId argument of load: a guid string or a numeric index.
The index is an Int because a JavaScript caller may pass any number,
negative ones included. -/
inductive Selector where
  | guid (g : String)
  | index (i : Int)

/-- How the promise returned by load settles. resolved carries the value
passed to resolve: some viewable, or none when the JavaScript code resolves
with an undefined array element. -/
inductive LoadOutcome where
  | resolved (v : Option ViewableData)
  | rejected (msg : String)
deriving DecidableEq

/-- JavaScript array indexing with a possibly negative index: a defined
element only for 0 <= i < length, undefined (none) otherwise. -/
def jsIndex (l : List ViewableData) (i : Int) : Option ViewableData :=
  if 0 ≤ i then l.get? i.toNat else none

/-- The onDocumentLoadSuccess callback of load (Utilities.js lines 107-126),
translated branch for branch. -/
def onDocumentLoadSuccess (viewableId : Selector) (doc : BubbleNode) : LoadOutcome :=
  match viewableId with
  | Selector.guid g =>
      match doc.findByGuid g with
      | some viewable => LoadOutcome.resolved (some viewable)
      | none => LoadOutcome.rejected ("Viewable " ++ g ++ " not found.")
  | Selector.index i =>
      let viewables := doc.search "geometry"
      if i < (viewables.length : Int) then
        LoadOutcome.resolved (jsIndex viewables i)
      else
        LoadOutcome.rejected ("Viewable " ++ toString i ++ " not found.")

/-- The onDocumentLoadError callback of load (Utilities.js lines 127-129). -/
def onDocumentLoadError (errorCode : Int) (errorMsg : String) : LoadOutcome :=
  LoadOutcome.rejected
    ("Document loading error: " ++ errorMsg ++ " (" ++ toString errorCode ++ ")")

/-- Settlement of the load promise once the engine document loader has
answered: the success callback on a document, the error callback on an
engine-reported code and message. -/
def onDocumentLoad (r : Except (Int × String) BubbleNode) (viewableId : Selector) :
    LoadOutcome :=
  match r with
  | Except.ok doc => onDocumentLoadSuccess viewableId doc
  | Except.error (c, m) => onDocumentLoadError c m

/-- The load method (Utilities.js lines 104-132). The engine document loader
is an explicit argument: load hands it the string urn: prepended to
documentUrn and settles from its answer. -/
def load (documentLoader : String → Except (Int × String) BubbleNode)
    (documentUrn : String) (viewableId : Selector) : LoadOutcome :=
  onDocumentLoad (documentLoader ("urn:" ++ documentUrn)) viewableId

/-- Whether the load promise was rejected. -/
def isRejected : LoadOutcome → Bool
  | LoadOutcome.resolved _ => false
  | LoadOutcome.rejected _ => true

/-! ## Object tree model and the six enumeration methods

The engine object tree is a hierarchy of numeric scene-object ids; each node
also owns a list of fragment ids. The engine hands the tree to a success
callback of getObjectTree, or an error message to an error callback; that
outcome is the Except argument of the methods below. -/

/-- A node of the engine object tree: its id, its fragment ids, its child
nodes. -/
inductive NodeT where
  | node (id : Nat) (fragIds : List Nat) (children : List NodeT)

/-- The id of a tree node. -/
def NodeT.nodeId : NodeT → Nat
  | NodeT.node i _ _ => i

/-- The child nodes of a tree node. -/
def NodeT.childNodes : NodeT → List NodeT
  | NodeT.node _ _ cs => cs

/-- First node of a forest with the given id, in preorder: the engine looks
nodes up by id. -/
def findInForest (target : Nat) : List NodeT → Option NodeT
  | [] => none
  | NodeT.node i fs cs :: rest =>
      if i = target then some (NodeT.node i fs cs)
      else
        match findInForest target cs with
        | some n => some n
        | none => findInForest target rest

/-- The engine tree.getRootId(). -/
def getRootIdOf (t : NodeT) : Nat :=
  t.nodeId

/-- The engine tree.getChildCount(id): the child count of the node with that
id, 0 when the tree has no such node. -/
def getChildCount (t : NodeT) (i : Nat) : Nat :=
  match findInForest i [t] with
  | some n => n.childNodes.length
  | none => 0

/-- The ids a recursive enumNodeChildren visits below a forest, in order:
each node, then its descendants, then its later siblings. -/
def nodeListSeq : List NodeT → List Nat
  | [] => []
  | NodeT.node i _ cs :: rest => i :: (nodeListSeq cs ++ nodeListSeq rest)

/-- The fragment ids a recursive enumNodeFragments visits over a forest, in
order: each node owns fragments, then descendants, then later siblings. -/
def fragListSeq : List NodeT → List Nat
  | [] => []
  | NodeT.node _ fs cs :: rest => fs ++ (fragListSeq cs ++ fragListSeq rest)

/-- The id sequence of tree.enumNodeChildren(parentId, cb, true): the callback
sees every descendant of the node whose id is parentId, the node itself
excluded; nothing when no node has that id. -/
def nodeSeq (t : NodeT) (parentId : Nat) : List Nat :=
  match findInForest parentId [t] with
  | some n => nodeListSeq n.childNodes
  | none => []

/-- The id sequence of tree.enumNodeFragments(parentId, cb, true): the
fragments of the node whose id is parentId and of all its descendants. -/
def fragSeq (t : NodeT) (parentId : Nat) : List Nat :=
  match findInForest parentId [t] with
  | some n => fragListSeq [n]
  | none => []

/-- The array a pull-form method builds by pushing every enumerated id
(Utilities.js line 273: ids.push(id)). -/
def collectAll (s : List Nat) : List Nat :=
  s.foldl (fun acc i => acc ++ [i]) []

/-- The array listLeafNodes builds: an id is pushed only when the tree
reports zero children for it at traversal time (Utilities.js line 342). -/
def collectLeaves (t : NodeT) (s : List Nat) : List Nat :=
  s.foldl (fun acc i => if getChildCount t i == 0 then acc ++ [i] else acc) []

/-- enumerateNodes (Utilities.js lines 240-249): the value is the sequence of
ids the method reports to its callback; an error value stands for the Error
the method throws from the engine error callback. -/
def enumerateNodes (tr : Except String NodeT) (parent : Option Nat) :
    Except String (List Nat) :=
  match tr with
  | Except.error e => Except.error e
  | Except.ok t => Except.ok (nodeSeq t (parent.getD (getRootIdOf t)))

/-- listNodes (Utilities.js lines 265-279): the promise resolves with the
array the push callback accumulated, or rejects with the engine error. -/
def listNodes (tr : Except String NodeT) (parentId : Option Nat) :
    Except String (List Nat) :=
  match tr with
  | Except.error e => Except.error e
  | Except.ok t => Except.ok (collectAll (nodeSeq t (parentId.getD (getRootIdOf t))))

/-- enumerateLeafNodes (Utilities.js lines 304-316): the callback sees exactly
the enumerated ids whose reported child count is zero, in traversal order. -/
def enumerateLeafNodes (tr : Except String NodeT) (parent : Option Nat) :
    Except String (List Nat) :=
  match tr with
  | Except.error e => Except.error e
  | Except.ok t =>
      Except.ok (((nodeSeq t (parent.getD (getRootIdOf t)))).filter
        (fun i => getChildCount t i == 0))

/-- listLeafNodes (Utilities.js lines 332-348): ids pushed under the
child-count test, resolved as an array. -/
def listLeafNodes (tr : Except String NodeT) (parentId : Option Nat) :
    Except String (List Nat) :=
  match tr with
  | Except.error e => Except.error e
  | Except.ok t =>
      Except.ok (collectLeaves t (nodeSeq t (parentId.getD (getRootIdOf t))))

/-- enumerateFragments (Utilities.js lines 379-388). -/
def enumerateFragments (tr : Except String NodeT) (parent : Option Nat) :
    Except String (List Nat) :=
  match tr with
  | Except.error e => Except.error e
  | Except.ok t => Except.ok (fragSeq t (parent.getD (getRootIdOf t)))

/-- listFragments (Utilities.js lines 405-419). -/
def listFragments (tr : Except String NodeT) (parentId : Option Nat) :
    Except String (List Nat) :=
  match tr with
  | Except.error e => Except.error e
  | Except.ok t => Except.ok (collectAll (fragSeq t (parentId.getD (getRootIdOf t))))

/-! ## Ray casting -/

/-- An intersection record produced by the engine ray caster. The wrapper
never inspects the fields; distance is the one the documented ordering is
about. -/
structure Intersection where
  dbId : Nat
  distance : Int
  fragId : Nat
deriving DecidableEq

/-- The engine collaborators rayCast uses: impl.clientToViewport converts
canvas coordinates to viewport space, and the ray query yields the hit
records for a viewport position. -/
structure RayCaster where
  clientToViewport : Int × Int → Int × Int
  hits : Int × Int → List Intersection

/-- The engine impl.castRayViewport(vp, false, null, null, acc): it appends
the hit records for the viewport position to the accumulator array it is
handed. -/
def castRayViewport (rc : RayCaster) (vp : Int × Int) (acc : List Intersection) :
    List Intersection :=
  acc ++ rc.hits vp

/-- rayCast (Utilities.js lines 166-170): start from an empty array, cast at
the converted coordinates, return the array. -/
def rayCast (rc : RayCaster) (x y : Int) : List Intersection :=
  castRayViewport rc (rc.clientToViewport (x, y)) []

/-! ## Overlay mesh management

Meshes are opaque objects; a Nat stands for a mesh identity. The facade
overlay state is the engine impl.overlayScenes map: for each overlay name,
either no scene yet, or the list of meshes added to that scene. -/

structure OverlayState where
  overlayScenes : String → Option (List Nat)

/-- Modelled from the spec: the engine impl.createOverlayScene(name), missing
from src, registers an empty overlay scene under the name (section 4.4 of the
spec, lazily created named render pass). -/
def createOverlayScene (st : OverlayState) (name : String) : OverlayState :=
  OverlayState.mk (fun n => if n = name then some [] else st.overlayScenes n)

/-- Modelled from the spec: the engine impl.addOverlay(name, mesh), missing
from src, appends the mesh to the named overlay scene render list (section
4.4 of the spec). -/
def addOverlay (st : OverlayState) (name : String) (mesh : Nat) : OverlayState :=
  OverlayState.mk (fun n =>
    if n = name then some ((st.overlayScenes name).getD [] ++ [mesh])
    else st.overlayScenes n)

/-- Modelled from the spec: the engine impl.removeOverlay(name, mesh),
missing from src, removes the mesh from the named overlay scene render list;
removing a mesh that is not there changes nothing (section 4.4 of the spec,
removal of a non-member is benign). -/
def removeOverlay (st : OverlayState) (name : String) (mesh : Nat) : OverlayState :=
  OverlayState.mk (fun n =>
    if n = name then some (((st.overlayScenes name).getD []).erase mesh)
    else st.overlayScenes n)

/-- addCustomMesh (Utilities.js lines 186-191): create the overlay scene when
the overlayScenes map has no entry for the name, then add the mesh. -/
def addCustomMesh (st : OverlayState) (mesh : Nat) (overlay : String) : OverlayState :=
  let st1 := if (st.overlayScenes overlay).isSome then st else createOverlayScene st overlay
  addOverlay st1 overlay mesh

/-- removeCustomMesh (Utilities.js lines 204-209): create the overlay scene
when the overlayScenes map has no entry for the name, then remove the mesh. -/
def removeCustomMesh (st : OverlayState) (mesh : Nat) (overlay : String) : OverlayState :=
  let st1 := if (st.overlayScenes overlay).isSome then st else createOverlayScene st overlay
  removeOverlay st1 overlay mesh

/-- The meshes of a named overlay as the caller observes them: none yet for a
scene that was never created. -/
def overlayMeshes (st : OverlayState) (overlay : String) : List Nat :=
  (st.overlayScenes overlay).getD []

/-! ## Fragment transforms -/

structure Vec3 where
  x : Int
  y : Int
  z : Int
deriving DecidableEq

structure Quat where
  x : Int
  y : Int
  z : Int
  w : Int
deriving DecidableEq

structure Box3 where
  lo : Vec3
  hi : Vec3
deriving DecidableEq

/-- An opaque 4x4 matrix as the wrapper handles it: never inspected, only
copied out of the engine fragment list. -/
structure Matrix4 where
  elements : List Int
deriving DecidableEq

/-- The auxiliary (animation) transform of a fragment: scale, rotation
quaternion, translation. -/
structure AuxTransform where
  scale : Vec3
  rotation : Quat
  position : Vec3
deriving DecidableEq

/-- The engine fragment list, keyed by fragment id: world bounds, original
matrix, auxiliary transform, composed world matrix. -/
structure FragmentList where
  worldBounds : Nat → Box3
  originalWorldMatrix : Nat → Matrix4
  animTransform : Nat → AuxTransform
  worldMatrix : Nat → Matrix4

/-- Modelled from the spec: the engine frags.updateAnimTransform(fragId,
scale, rotation, position), missing from src. Section 4.6 of the spec: any
omitted component leaves that component of the auxiliary transform unchanged,
a supplied one replaces it; other fragments are untouched. -/
def FragmentList.updateAnimTransform (fl : FragmentList) (fragId : Nat)
    (scale : Option Vec3) (rotation : Option Quat) (position : Option Vec3) :
    FragmentList :=
  { fl with
    animTransform := fun i =>
      if i = fragId then
        { scale := scale.getD (fl.animTransform fragId).scale
          rotation := rotation.getD (fl.animTransform fragId).rotation
          position := position.getD (fl.animTransform fragId).position }
      else fl.animTransform i }

/-- The loaded model as the fragment methods use it: viewer.model exposes a
fragment list. -/
structure ViewerModel where
  fragList : FragmentList

/-- The viewer state the fragment methods read: viewer.model is null before
a model is loaded. -/
structure ViewerState where
  model : Option ViewerModel

/-- The message of the Error every fragment method throws while no model is
loaded (Utilities.js lines 439, 464, 499, 528, 555). -/
def fragmentsNotAvailableError : String :=
  "Fragments not yet available. Wait for Autodesk.Viewing.FRAGMENTS_LOADED_EVENT event."

/-- getFragmentBounds (Utilities.js lines 437-445): an error value stands for
the thrown Error, an ok value for the returned box. -/
def getFragmentBounds (v : ViewerState) (fragId : Nat) : Except String Box3 :=
  match v.model with
  | none => Except.error fragmentsNotAvailableError
  | some m => Except.ok (m.fragList.worldBounds fragId)

/-- getFragmentOrigTransform (Utilities.js lines 462-470). -/
def getFragmentOrigTransform (v : ViewerState) (fragId : Nat) : Except String Matrix4 :=
  match v.model with
  | none => Except.error fragmentsNotAvailableError
  | some m => Except.ok (m.fragList.originalWorldMatrix fragId)

/-- getFragmentAuxTransform (Utilities.js lines 497-503): the value is what
frags.getAnimTransform writes into the caller-provided outputs. -/
def getFragmentAuxTransform (v : ViewerState) (fragId : Nat) :
    Except String AuxTransform :=
  match v.model with
  | none => Except.error fragmentsNotAvailableError
  | some m => Except.ok (m.fragList.animTransform fragId)

/-- setFragmentAuxTransform (Utilities.js lines 526-532): the ok value is the
viewer state with the fragment list updated by the engine. -/
def setFragmentAuxTransform (v : ViewerState) (fragId : Nat)
    (scale : Option Vec3) (rotation : Option Quat) (position : Option Vec3) :
    Except String ViewerState :=
  match v.model with
  | none => Except.error fragmentsNotAvailableError
  | some m =>
      Except.ok (ViewerState.mk (some (ViewerModel.mk
        (m.fragList.updateAnimTransform fragId scale rotation position))))

/-- getFragmentTransform (Utilities.js lines 553-561). -/
def getFragmentTransform (v : ViewerState) (fragId : Nat) : Except String Matrix4 :=
  match v.model with
  | none => Except.error fragmentsNotAvailableError
  | some m => Except.ok (m.fragList.worldMatrix fragId)

/-- Whether an Except value is a success. -/
def isOkE {ε α : Type} : Except ε α → Bool
  | Except.ok _ => true
  | Except.error _ => false

/-- ASCII lowercasing of one character, enough to compare the error message
against the spec phrase independent of letter case. -/
def lowerChar (c : Char) : Char :=
  if 65 ≤ c.toNat ∧ c.toNat ≤ 90 then Char.ofNat (c.toNat + 32) else c

/-- ASCII lowercasing of a character list. -/
def lowerList : List Char → List Char :=
  List.map lowerChar

/-! ## Concrete fixtures used by witnesses and counterexamples -/

def vA : ViewableData :=
  { guid := "guid-a", type := "geometry", id := 1 }

def vB : ViewableData :=
  { guid := "guid-b", type := "sheet", id := 2 }

def vC : ViewableData :=
  { guid := "guid-c", type := "geometry", id := 3 }

/-- A document with two geometry viewables (vA, vC) and one sheet (vB). -/
def docW : BubbleNode :=
  BubbleNode.node { guid := "guid-root", type := "design", id := 0 }
    [BubbleNode.node vA [], BubbleNode.node vB [BubbleNode.node vC []]]

/-- An engine document loader that always succeeds with docW. -/
def loaderW : String → Except (Int × String) BubbleNode :=
  fun _ => Except.ok docW

/-- An engine document loader that always fails with code 42. -/
def loaderErrW : String → Except (Int × String) BubbleNode :=
  fun _ => Except.error (42, "network")

/-- An engine document loader that keeps the urn it was asked for inside the
error message, so the double-prefix behaviour is observable. -/
def loaderDbl : String → Except (Int × String) BubbleNode :=
  fun s => Except.error (1, s)

/-- A ray caster with two hits, already sorted by distance, at every
viewport position. -/
def rcW : RayCaster :=
  { clientToViewport := fun p => p
    hits := fun _ => [{ dbId := 1, distance := 2, fragId := 10 },
                      { dbId := 2, distance := 5, fragId := 11 }] }

/-- An overlay state with one overlay named A holding meshes 1 and 2. -/
def stW9 : OverlayState :=
  OverlayState.mk (fun n => if n = "A" then some [1, 2] else none)

/-- An overlay state with no overlay scene at all. -/
def emptyOverlayState : OverlayState :=
  OverlayState.mk (fun _ => none)

/-- A concrete fragment list whose fragment 5 has a non-identity auxiliary
transform. -/
def flW : FragmentList :=
  { worldBounds := fun _ => { lo := Vec3.mk 0 0 0, hi := Vec3.mk 1 1 1 }
    originalWorldMatrix := fun _ => Matrix4.mk [1, 0, 0, 1]
    animTransform := fun _ =>
      { scale := Vec3.mk 2 2 2, rotation := Quat.mk 0 0 0 1, position := Vec3.mk 0 0 0 }
    worldMatrix := fun _ => Matrix4.mk [2, 0, 0, 2] }

/-- A viewer state with a loaded model exposing flW. -/
def viewerW : ViewerState :=
  ViewerState.mk (some (ViewerModel.mk flW))

/-- A viewer state before any model is loaded. -/
def viewerNone : ViewerState :=
  ViewerState.mk none

/-! ## Helper lemmas -/

/-- Folding a push over a sequence appends the sequence to the accumulator. -/
theorem foldl_push_eq (s acc : List Nat) :
    s.foldl (fun a i => a ++ [i]) acc = acc ++ s := by
  induction s generalizing acc with
  | nil => simp
  | cons x xs ih => simp [List.foldl, ih]

/-- The pull-form accumulator reproduces the enumerated sequence. -/
theorem collectAll_eq (s : List Nat) : collectAll s = s := by
  simp [collectAll, foldl_push_eq]

/-- Folding a conditional push filters the sequence onto the accumulator. -/
theorem foldl_push_filter_eq (p : Nat → Bool) (s acc : List Nat) :
    s.foldl (fun a i => if p i then a ++ [i] else a) acc = acc ++ s.filter p := by
  induction s generalizing acc with
  | nil => simp
  | cons x xs ih =>
      cases hb : p x <;> simp [List.foldl_cons, List.filter_cons, hb, ih]

/-- The leaf accumulator is the filter of the enumerated sequence. -/
theorem collectLeaves_eq (t : NodeT) (s : List Nat) :
    collectLeaves t s = s.filter (fun i => getChildCount t i == 0) := by
  have h := foldl_push_filter_eq (fun i => getChildCount t i == 0) s []
  simpa [collectLeaves] using h

/-! ## Claim theorems -/

/-- C5: for every available object tree and parent argument (the root when
omitted), the sequence listLeafNodes resolves with is exactly the subsequence
of the sequence listNodes resolves with whose reported child count at
traversal time is zero, traversal order preserved. -/
theorem listLeafNodes_is_filtered_listNodes (t : NodeT) (parentId : Option Nat) :
    listLeafNodes (Except.ok t) parentId
      = (listNodes (Except.ok t) parentId).map
          (fun ids => ids.filter (fun i => getChildCount t i == 0)) := by
  simp [listLeafNodes, listNodes, Except.map, collectAll_eq, collectLeaves_eq]

/-- C6: for every object tree outcome and every parent argument, each
pull-form enumeration resolves with exactly the id sequence its push-form
counterpart reports to its callback, in the same order; when the tree is
unavailable the pull form rejects with the same error on which the push form
throws. -/
theorem pull_forms_match_push_forms (tr : Except String NodeT) (parent : Option Nat) :
    listNodes tr parent = enumerateNodes tr parent ∧
    listLeafNodes tr parent = enumerateLeafNodes tr parent ∧
    listFragments tr parent = enumerateFragments tr parent := by
  cases tr with
  | error e => exact ⟨rfl, rfl, rfl⟩
  | ok t =>
      refine ⟨?_, ?_, ?_⟩ <;>
        simp [listNodes, enumerateNodes, listLeafNodes, enumerateLeafNodes,
          listFragments, enumerateFragments, collectAll_eq, collectLeaves_eq]

/-- C3: each of the five fragment-transform operations fails with the
fragments-not-yet-available error exactly when no model is loaded, succeeds
whenever a model is loaded whatever the fragment id, and the error message
contains the phrase fragments not yet available up to letter case. -/
theorem fragment_ops_fail_iff_no_model (v : ViewerState) (fragId : Nat)
    (s : Option Vec3) (r : Option Quat) (p : Option Vec3) :
    ((getFragmentBounds v fragId = Except.error fragmentsNotAvailableError) ↔
       v.model = none) ∧
    ((getFragmentOrigTransform v fragId = Except.error fragmentsNotAvailableError) ↔
       v.model = none) ∧
    ((getFragmentAuxTransform v fragId = Except.error fragmentsNotAvailableError) ↔
       v.model = none) ∧
    ((setFragmentAuxTransform v fragId s r p = Except.error fragmentsNotAvailableError) ↔
       v.model = none) ∧
    ((getFragmentTransform v fragId = Except.error fragmentsNotAvailableError) ↔
       v.model = none) ∧
    (isOkE (getFragmentBounds v fragId) = true ↔ v.model.isSome = true) ∧
    (isOkE (getFragmentOrigTransform v fragId) = true ↔ v.model.isSome = true) ∧
    (isOkE (getFragmentAuxTransform v fragId) = true ↔ v.model.isSome = true) ∧
    (isOkE (setFragmentAuxTransform v fragId s r p) = true ↔ v.model.isSome = true) ∧
    (isOkE (getFragmentTransform v fragId) = true ↔ v.model.isSome = true) ∧
    ("fragments not yet available".data <:+: lowerList fragmentsNotAvailableError.data) := by
  cases hm : v.model with
  | none =>
      refine ⟨?_, ?_, ?_, ?_, ?_, ?_, ?_, ?_, ?_, ?_, by decide⟩ <;>
        simp [getFragmentBounds, getFragmentOrigTransform, getFragmentAuxTransform,
          setFragmentAuxTransform, getFragmentTransform, isOkE, hm]
  | some m =>
      refine ⟨?_, ?_, ?_, ?_, ?_, ?_, ?_, ?_, ?_, ?_, by decide⟩ <;>
        simp [getFragmentBounds, getFragmentOrigTransform, getFragmentAuxTransform,
          setFragmentAuxTransform, getFragmentTransform, isOkE, hm]

/-- C4: with a model loaded, setting only the position component of a
fragment auxiliary transform keeps the prior scale and rotation of that
fragment and stores the new position, as read back through
getFragmentAuxTransform. -/
theorem setFragmentAuxTransform_position_only_keeps_rest
    (v : ViewerState) (m : ViewerModel) (fragId : Nat) (p : Vec3)
    (h : v.model = some m) :
    (setFragmentAuxTransform v fragId none none (some p)).toOption.bind
        (fun v2 => (getFragmentAuxTransform v2 fragId).toOption)
      = some { scale := (m.fragList.animTransform fragId).scale
               rotation := (m.fragList.animTransform fragId).rotation
               position := p } := by
  simp [setFragmentAuxTransform, getFragmentAuxTransform, h, Except.toOption,
    FragmentList.updateAnimTransform]

/-- Witness for C4 at a concrete viewer state: fragment 5 starts with scale
(2,2,2) and rotation (0,0,0,1); setting only position (7,8,9) keeps both. -/
theorem setFragmentAuxTransform_position_only_keeps_rest_witness :
    (setFragmentAuxTransform viewerW 5 none none (some (Vec3.mk 7 8 9))).toOption.bind
        (fun v2 => (getFragmentAuxTransform v2 5).toOption)
      = some { scale := Vec3.mk 2 2 2
               rotation := Quat.mk 0 0 0 1
               position := Vec3.mk 7 8 9 } :=
  setFragmentAuxTransform_position_only_keeps_rest viewerW (ViewerModel.mk flW) 5
    (Vec3.mk 7 8 9) rfl

/-- C7: rayCast consults the engine ray query only at the viewport conversion
of the given canvas coordinates; whenever the engine hit lists are sorted by
non-decreasing distance, as the source documents, so is the returned
sequence; and an empty hit list yields the empty sequence, never an error. -/
theorem rayCast_converts_and_sorted (rc : RayCaster) (x y : Int)
    (h : ∀ vp : Int × Int,
      List.Sorted (fun a b : Intersection => a.distance ≤ b.distance) (rc.hits vp)) :
    rayCast rc x y = rc.hits (rc.clientToViewport (x, y)) ∧
    List.Sorted (fun a b : Intersection => a.distance ≤ b.distance) (rayCast rc x y) ∧
    (rc.hits (rc.clientToViewport (x, y)) = [] → rayCast rc x y = []) := by
  refine ⟨by simp [rayCast, castRayViewport], ?_, ?_⟩
  · simpa [rayCast, castRayViewport] using h (rc.clientToViewport (x, y))
  · intro he
    simp [rayCast, castRayViewport, he]

/-- Witness for C7 at a concrete ray caster whose hit list is sorted. -/
theorem rayCast_converts_and_sorted_witness :
    rayCast rcW 3 4 = rcW.hits (rcW.clientToViewport (3, 4)) ∧
    List.Sorted (fun a b : Intersection => a.distance ≤ b.distance) (rayCast rcW 3 4) ∧
    (rcW.hits (rcW.clientToViewport (3, 4)) = [] → rayCast rcW 3 4 = []) :=
  rayCast_converts_and_sorted rcW 3 4 (fun _ => by
    simp [rcW, List.Sorted])

/-- C8: adding a mesh to a named overlay and then removing the same mesh from
the same overlay leaves the overlay mesh membership exactly as it was before
the add, for every starting state, mesh and overlay name. -/
theorem addCustomMesh_removeCustomMesh_roundtrip
    (st : OverlayState) (mesh : Nat) (overlay : String) (x : Nat) :
    (x ∈ overlayMeshes (removeCustomMesh (addCustomMesh st mesh overlay) mesh overlay)
        overlay)
      ↔ x ∈ overlayMeshes st overlay := by
  have hperm : ((overlayMeshes st overlay ++ [mesh]).erase mesh).Perm
      (overlayMeshes st overlay) := by
    have h1 : (overlayMeshes st overlay ++ [mesh]).Perm
        (mesh :: overlayMeshes st overlay) :=
      List.perm_append_singleton mesh (overlayMeshes st overlay)
    have h2 := h1.erase mesh
    simpa [List.erase_cons_head] using h2
  have hstate : overlayMeshes (removeCustomMesh (addCustomMesh st mesh overlay)
        mesh overlay) overlay
      = (overlayMeshes st overlay ++ [mesh]).erase mesh := by
    cases hsc : st.overlayScenes overlay with
    | none =>
        simp [overlayMeshes, removeCustomMesh, addCustomMesh, addOverlay,
          removeOverlay, createOverlayScene, hsc]
    | some l =>
        simp [overlayMeshes, removeCustomMesh, addCustomMesh, addOverlay,
          removeOverlay, createOverlayScene, hsc]
  rw [hstate]
  exact hperm.mem_iff

/-- C9 as the code has it: removing a mesh that is not a member of the named
overlay raises no error and leaves every overlay mesh list unchanged, but
when the named overlay does not exist yet it is lazily created empty, so the
overlay map itself does change in that case: afterwards the named overlay
exists and holds exactly the prior meshes. -/
theorem removeCustomMesh_nonmember (st : OverlayState) (mesh : Nat) (overlay : String)
    (h : mesh ∉ overlayMeshes st overlay) :
    overlayMeshes (removeCustomMesh st mesh overlay) overlay
      = overlayMeshes st overlay ∧
    (removeCustomMesh st mesh overlay).overlayScenes overlay
      = some (overlayMeshes st overlay) ∧
    (∀ other : String, other ≠ overlay →
      (removeCustomMesh st mesh overlay).overlayScenes other
        = st.overlayScenes other) := by
  have herase : (overlayMeshes st overlay).erase mesh = overlayMeshes st overlay :=
    List.erase_of_not_mem h
  cases hsc : st.overlayScenes overlay with
  | none =>
      refine ⟨?_, ?_, ?_⟩
      · simp_all [overlayMeshes, removeCustomMesh, removeOverlay, createOverlayScene, hsc]
      · simp_all [overlayMeshes, removeCustomMesh, removeOverlay, createOverlayScene, hsc]
      · intro other hne
        simp [overlayMeshes, removeCustomMesh, removeOverlay, createOverlayScene, hsc, hne]
  | some l =>
      have hl : overlayMeshes st overlay = l := by simp [overlayMeshes, hsc]
      refine ⟨?_, ?_, ?_⟩
      · simp_all [overlayMeshes, removeCustomMesh, removeOverlay, hsc]
      · simp_all [overlayMeshes, removeCustomMesh, removeOverlay, hsc]
      · intro other hne
        simp [overlayMeshes, removeCustomMesh, removeOverlay, hsc, hne]

/-- Witness for C9 at a concrete state: overlay A holds meshes 1 and 2, mesh
3 is not a member, and its removal leaves the list [1, 2] in place. -/
theorem removeCustomMesh_nonmember_witness :
    overlayMeshes (removeCustomMesh stW9 3 "A") "A" = overlayMeshes stW9 "A" ∧
    (removeCustomMesh stW9 3 "A").overlayScenes "A" = some (overlayMeshes stW9 "A") ∧
    (∀ other : String, other ≠ "A" →
      (removeCustomMesh stW9 3 "A").overlayScenes other = stW9.overlayScenes other) :=
  removeCustomMesh_nonmember stW9 3 "A" (by decide)

/-- Counterexample to C9 as stated: on a state with no overlay scene at all,
removing mesh 0 from the default overlay name is not a no-op on the overlay
state, because the overlay scene gets created: the map now has an entry. -/
theorem removeCustomMesh_creates_missing_overlay :
    (removeCustomMesh emptyOverlayState 0 "UtilitiesOverlay").overlayScenes
        "UtilitiesOverlay" = some [] ∧
    emptyOverlayState.overlayScenes "UtilitiesOverlay" = none := by
  constructor
  · simp [removeCustomMesh, removeOverlay, createOverlayScene, emptyOverlayState]
  · rfl

/-- The geometry search over the fixture document: exactly vA and vC, in
document order. -/
theorem docW_search_geometry : docW.search "geometry" = [vA, vC] := by
  simp [BubbleNode.search, searchByType, docW, vA, vB, vC]

/-- C1 as the code has it: with the engine loader succeeding on the prefixed
urn, an index selector resolves with the element at that position of the
filtered, order-preserving geometry list when 0 <= i < count, rejects with a
message naming the index when i >= count, and for a negative index resolves
with the undefined array element instead of rejecting. -/
theorem load_index_selector_semantics
    (documentLoader : String → Except (Int × String) BubbleNode)
    (documentUrn : String) (doc : BubbleNode) (i : Int)
    (h : documentLoader ("urn:" ++ documentUrn) = Except.ok doc) :
    (0 ≤ i → i < ((doc.search "geometry").length : Int) →
      load documentLoader documentUrn (Selector.index i)
        = LoadOutcome.resolved ((doc.search "geometry").get? i.toNat) ∧
      ((doc.search "geometry").get? i.toNat).isSome = true) ∧
    (((doc.search "geometry").length : Int) ≤ i →
      load documentLoader documentUrn (Selector.index i)
        = LoadOutcome.rejected ("Viewable " ++ toString i ++ " not found.")) ∧
    (i < 0 →
      load documentLoader documentUrn (Selector.index i)
        = LoadOutcome.resolved none) := by
  refine ⟨?_, ?_, ?_⟩
  · intro h0 hlt
    constructor
    · simp [load, h, onDocumentLoad, onDocumentLoadSuccess, hlt, jsIndex, h0]
    · have hn : i.toNat < (doc.search "geometry").length := by omega
      simp [List.get?_eq_getElem?, hn]
  · intro hge
    have hnlt : ¬ i < ((doc.search "geometry").length : Int) := by omega
    simp [load, h, onDocumentLoad, onDocumentLoadSuccess, hnlt]
  · intro hneg
    have hlt : i < ((doc.search "geometry").length : Int) := by omega
    have h0 : ¬ (0 : Int) ≤ i := by omega
    simp [load, h, onDocumentLoad, onDocumentLoadSuccess, hlt, jsIndex, h0]

/-- Witness for C1 on the fixture document, exercising all three branches:
index 0 resolves with the first geometry viewable, index 5 rejects with a
message naming it, index -3 resolves with the undefined element. -/
theorem load_index_selector_semantics_witness :
    load loaderW "docA" (Selector.index 0)
      = LoadOutcome.resolved ((docW.search "geometry").get? (0 : Int).toNat) ∧
    load loaderW "docA" (Selector.index 5)
      = LoadOutcome.rejected ("Viewable " ++ toString (5 : Int) ++ " not found.") ∧
    load loaderW "docA" (Selector.index (-3)) = LoadOutcome.resolved none :=
  ⟨((load_index_selector_semantics loaderW "docA" docW 0 rfl).1 (by decide)
      (by rw [docW_search_geometry]; decide)).1,
   (load_index_selector_semantics loaderW "docA" docW 5 rfl).2.1
      (by rw [docW_search_geometry]; decide),
   (load_index_selector_semantics loaderW "docA" docW (-3) rfl).2.2 (by decide)⟩

/-- Counterexample to C1 as stated: the fixture document has a non-empty
geometry list (two viewables), the index -1 is out of bounds of that list,
and yet load does not reject: it resolves, with the undefined element. -/
theorem load_negative_index_not_rejected :
    (docW.search "geometry").length = 2 ∧
    load loaderW "docA" (Selector.index (-1)) = LoadOutcome.resolved none ∧
    isRejected (load loaderW "docA" (Selector.index (-1))) = false := by
  refine ⟨by simp [docW_search_geometry], ?_, ?_⟩ <;>
    simp [load, loaderW, onDocumentLoad, onDocumentLoadSuccess, docW_search_geometry,
      jsIndex, isRejected]

/-- C2 as the code has it: the load promise rejects exactly when the engine
reports a document-load failure (message carrying the engine error code), the
guid selector is absent from the document tree (message naming the guid), or
a numeric index is at least the geometry-viewable count (message naming the
index); a found guid or an in-range index resolves with the selected
viewable; a negative index resolves with the undefined element instead of
rejecting. -/
theorem load_settlement_characterization
    (documentLoader : String → Except (Int × String) BubbleNode)
    (documentUrn : String) (sel : Selector) :
    (isRejected (load documentLoader documentUrn sel) = true ↔
      (match documentLoader ("urn:" ++ documentUrn), sel with
       | Except.error _, _ => True
       | Except.ok doc, Selector.guid g => doc.findByGuid g = none
       | Except.ok doc, Selector.index i =>
           ((doc.search "geometry").length : Int) ≤ i)) ∧
    (∀ c m, documentLoader ("urn:" ++ documentUrn) = Except.error (c, m) →
      load documentLoader documentUrn sel
        = LoadOutcome.rejected
            ("Document loading error: " ++ m ++ " (" ++ toString c ++ ")")) ∧
    (∀ doc g v, documentLoader ("urn:" ++ documentUrn) = Except.ok doc →
      sel = Selector.guid g → doc.findByGuid g = some v →
      load documentLoader documentUrn sel = LoadOutcome.resolved (some v)) ∧
    (∀ doc g, documentLoader ("urn:" ++ documentUrn) = Except.ok doc →
      sel = Selector.guid g → doc.findByGuid g = none →
      load documentLoader documentUrn sel
        = LoadOutcome.rejected ("Viewable " ++ g ++ " not found.")) ∧
    (∀ doc i, documentLoader ("urn:" ++ documentUrn) = Except.ok doc →
      sel = Selector.index i → ((doc.search "geometry").length : Int) ≤ i →
      load documentLoader documentUrn sel
        = LoadOutcome.rejected ("Viewable " ++ toString i ++ " not found.")) ∧
    (∀ doc i, documentLoader ("urn:" ++ documentUrn) = Except.ok doc →
      sel = Selector.index i → 0 ≤ i → i < ((doc.search "geometry").length : Int) →
      load documentLoader documentUrn sel
        = LoadOutcome.resolved ((doc.search "geometry").get? i.toNat)) := by
  refine ⟨?_, ?_, ?_, ?_, ?_, ?_⟩
  · cases hr : documentLoader ("urn:" ++ documentUrn) with
    | error cm =>
        obtain ⟨c, m⟩ := cm
        simp [load, onDocumentLoad, hr, onDocumentLoadError, isRejected]
    | ok doc =>
        cases sel with
        | guid g =>
            cases hf : doc.findByGuid g <;>
              simp [load, onDocumentLoad, hr, onDocumentLoadSuccess, hf, isRejected]
        | index i =>
            by_cases hlt : i < ((doc.search "geometry").length : Int)
            · simp only [load, onDocumentLoad, onDocumentLoadSuccess, hr, if_pos hlt,
                isRejected]
              constructor
              · intro hfalse
                exact absurd hfalse (by simp)
              · intro hge
                omega
            · simp only [load, onDocumentLoad, onDocumentLoadSuccess, hr, if_neg hlt,
                isRejected]
              constructor
              · intro _
                omega
              · intro _
                trivial
  · intro c m h
    simp [load, onDocumentLoad, h, onDocumentLoadError]
  · intro doc g v hdoc hsel hf
    subst hsel
    simp [load, onDocumentLoad, hdoc, onDocumentLoadSuccess, hf]
  · intro doc g hdoc hsel hf
    subst hsel
    simp [load, onDocumentLoad, hdoc, onDocumentLoadSuccess, hf]
  · intro doc i hdoc hsel hge
    subst hsel
    have hnlt : ¬ i < ((doc.search "geometry").length : Int) := by omega
    simp [load, onDocumentLoad, hdoc, onDocumentLoadSuccess, hnlt]
  · intro doc i hdoc hsel h0 hlt
    subst hsel
    simp [load, onDocumentLoad, hdoc, onDocumentLoadSuccess, hlt, jsIndex, h0]

/-- The guid lookup over the fixture document finds vC. -/
theorem docW_findByGuid_c : docW.findByGuid "guid-c" = some vC := by
  simp [BubbleNode.findByGuid, findByGuidForest, docW, vA, vB, vC]

/-- The guid lookup over the fixture document misses an absent guid. -/
theorem docW_findByGuid_nope : docW.findByGuid "nope" = none := by
  simp [BubbleNode.findByGuid, findByGuidForest, docW, vA, vB, vC]

/-- Witness for C2 at concrete loaders: an engine failure rejects with the
code in the message, a present guid resolves with its viewable, an absent
guid rejects naming it. -/
theorem load_settlement_characterization_witness :
    load loaderErrW "u" (Selector.index 0)
      = LoadOutcome.rejected
          ("Document loading error: " ++ "network" ++ " (" ++ toString (42 : Int) ++ ")") ∧
    load loaderW "docA" (Selector.guid "guid-c") = LoadOutcome.resolved (some vC) ∧
    load loaderW "docA" (Selector.guid "nope")
      = LoadOutcome.rejected ("Viewable " ++ "nope" ++ " not found.") :=
  ⟨(load_settlement_characterization loaderErrW "u" (Selector.index 0)).2.1
      42 "network" rfl,
   (load_settlement_characterization loaderW "docA" (Selector.guid "guid-c")).2.2.1
      docW "guid-c" vC rfl rfl docW_findByGuid_c,
   (load_settlement_characterization loaderW "docA" (Selector.guid "nope")).2.2.2.1
      docW "nope" rfl rfl docW_findByGuid_nope⟩

/-- Counterexample to C2 as stated: at index -2 the selector resolves to no
viewable over the fixture document, yet the promise is not rejected: it
resolves with the undefined element. -/
theorem load_negative_index_settles_resolved :
    jsIndex (docW.search "geometry") (-2) = none ∧
    isRejected (load loaderW "docA" (Selector.index (-2))) = false ∧
    load loaderW "docA" (Selector.index (-2)) = LoadOutcome.resolved none := by
  refine ⟨?_, ?_, ?_⟩ <;>
    simp [jsIndex, load, loaderW, onDocumentLoad, onDocumentLoadSuccess,
      docW_search_geometry, isRejected]

/-- C10: load consults the engine document loader only at the string urn:
prepended to the given identifier, so two loaders that agree there give the
same outcome, and an already-prefixed identifier reaches the loader
double-prefixed. -/
theorem load_consults_loader_at_prefixed_urn
    (documentLoader documentLoader2 : String → Except (Int × String) BubbleNode)
    (documentUrn : String) (sel : Selector)
    (h : documentLoader ("urn:" ++ documentUrn)
      = documentLoader2 ("urn:" ++ documentUrn)) :
    load documentLoader documentUrn sel
      = onDocumentLoad (documentLoader ("urn:" ++ documentUrn)) sel ∧
    load documentLoader documentUrn sel = load documentLoader2 documentUrn sel ∧
    load documentLoader ("urn:" ++ documentUrn) sel
      = onDocumentLoad (documentLoader ("urn:urn:" ++ documentUrn)) sel := by
  refine ⟨rfl, ?_, ?_⟩
  · simp [load, h]
  · have hpre : "urn:" ++ "urn:" = "urn:urn:" := rfl
    have hs : "urn:" ++ ("urn:" ++ documentUrn) = "urn:urn:" ++ documentUrn := by
      rw [← String.append_assoc, hpre]
    simp [load, hs]

/-- Witness for C10 at a loader that reports the urn it was asked for. -/
theorem load_consults_loader_at_prefixed_urn_witness :
    load loaderDbl "u" (Selector.index 0)
      = onDocumentLoad (loaderDbl ("urn:" ++ "u")) (Selector.index 0) ∧
    load loaderDbl "u" (Selector.index 0) = load loaderDbl "u" (Selector.index 0) ∧
    load loaderDbl ("urn:" ++ "u") (Selector.index 0)
      = onDocumentLoad (loaderDbl ("urn:urn:" ++ "u")) (Selector.index 0) :=
  load_consults_loader_at_prefixed_urn loaderDbl loaderDbl "u" (Selector.index 0) rfl
